import Mathlib

/-!
Verification of the two-tier caching proxy (exact-match store plus semantic
embedding cache with adaptive per-caller thresholds).

The development shallowly embeds three source units:
* the per-token rolling-statistics semantic cache (`RollingStats`,
  `findSimilarText` with dynamic thresholds);
* the earlier static-threshold semantic cache (`findSimilarTextStatic`)
  and the hash-embedding vector utilities (`querySimilarVectors`);
* the Cloudflare worker request router (`fetchRoute`), with external calls
  (body parsing, R2 gets, the vector index query, the origin fetch) supplied
  as oracle inputs.

JavaScript numbers are modeled as rationals; `Math.floor` is the integer
floor; `Math.random()` is an explicit rational parameter in `[0, 1)`.
-/

namespace Pollinations

/-- Similarity scores (JavaScript numbers) are modeled as rationals. -/
abbrev Score := ℚ

/-! ## Rolling statistics for dynamic thresholding (semantic-cache module)

Embeds the `RollingStats` class: a bounded FIFO window of observed
similarity scores plus an 80th-percentile dynamic threshold. -/

/-- State of the `RollingStats` class: the window of scores together with the
constructor parameters `windowSize` (default 200) and `targetHitRate`
(default 20, a percentage). -/
structure RollingStats where
  scores : List Score
  windowSize : Nat
  targetHitRate : Nat
deriving Repr, DecidableEq

/-- A freshly constructed `new RollingStats()` as created by `getTokenStats`. -/
def RollingStats.init : RollingStats := ⟨[], 200, 20⟩

/-- Method `addScore`: push the score, then if the window exceeds
`windowSize`, `shift()` removes the oldest (front) score. -/
def RollingStats.addScore (s : RollingStats) (score : Score) : RollingStats :=
  let pushed := s.scores ++ [score]
  if pushed.length > s.windowSize then
    { s with scores := pushed.tail }
  else
    { s with scores := pushed }

/-- Method `getDynamicThreshold`: below 7 samples return the conservative
0.9; otherwise sort the window ascending and take the entry at index
`Math.floor(((100 - targetHitRate) / 100) * length)`.  The source expression
`sorted[index] || 0.9` yields 0.9 whenever the lookup is falsy, i.e. the
index is out of range (undefined) or the stored value is 0; an out-of-range
access is modeled by the default value 0, which the falsy test then maps to
0.9 exactly as `||` does. -/
def RollingStats.getDynamicThreshold (s : RollingStats) : Score :=
  if s.scores.length < 7 then 9/10
  else
    let sorted := List.insertionSort (· ≤ ·) s.scores
    let index : ℤ := ⌊(100 - (s.targetHitRate : ℚ)) / 100 * (sorted.length : ℚ)⌋
    let v : Score := if index < 0 then 0 else sorted.getD index.toNat 0
    if v = 0 then 9/10 else v

/-! ## Semantic cache lookup with per-token dynamic thresholds

Embeds `findSimilarText` of the rolling-statistics semantic cache.  The
in-memory `tokenStats` map is sliced per call: the function receives the
rolling-stats entry `getTokenStats(tokenHash)` of the calling token, and
returns the updated entry next to the result.  `Math.random()` is passed in
as the rational `rand`. -/

/-- One Vectorize match as consumed by `findSimilarText`: the vector id, its
similarity score and the optional `metadata.model` / `metadata.userPrefix`
fields. -/
structure VMatch where
  id : String
  score : Score
  metaModel : Option String
  metaUserPrefix : Option String
deriving Repr, DecidableEq

/-- Result object built by `findSimilarText` when the query itself succeeds. -/
structure SimilarityResult where
  cacheKey : Option String
  similarity : Score
  model : String
  userPrefix : String
  aboveThreshold : Bool
deriving Repr, DecidableEq

/-- Outcome of the embedding generation plus `vectorize.query` call:
either some thrown error (caught by the surrounding try) or the list of
matches of the search result. -/
inductive SemanticQuery where
  | failure
  | results (matchList : List VMatch)
deriving Repr, DecidableEq

/-- JavaScript truthiness of the `token` argument (`null` and the empty
string are falsy). -/
def tokenTruthy : Option String → Bool
  | none => false
  | some t => !(t = "")

/-- Filter predicate of the rolling-statistics cache:
`match.score >= dynamicThreshold` (higher score means more similar). -/
def acceptBySimilarity (score threshold : Score) : Bool :=
  score ≥ threshold

/-- Default used where the source would read a field of `undefined`;
only ever used under a bounds hypothesis. -/
def defaultVMatch : VMatch := ⟨"", 0, none, none⟩

/-- Selection `list[Math.floor(Math.random() * list.length)]` with
`Math.random()` modeled by `rand`. -/
def randomSelect (l : List VMatch) (rand : ℚ) : VMatch :=
  l.getD (⌊rand * (l.length : ℚ)⌋).toNat defaultVMatch

/-- The `searchResults.matches.forEach(match => stats.addScore(match.score))`
loop: every returned score is appended to the rolling window. -/
def statsAfterQuery (stats : RollingStats) (matchList : List VMatch) : RollingStats :=
  matchList.foldl (fun s m => s.addScore m.score) stats

/-- Threshold used for classification: the free function
`getDynamicThreshold(token)` returns the fixed 0.9 whenever `token` is falsy
and otherwise delegates to the rolling-stats entry of the token hash, which
at this point has already absorbed the scores of the current query. -/
def classifyThreshold (token : Option String) (statsUpdated : RollingStats) : Score :=
  if tokenTruthy token then statsUpdated.getDynamicThreshold else 9/10

/-- Embedding of `findSimilarText` (rolling-statistics version).  Returns the
value the async function resolves to together with the updated rolling-stats
entry for the caller.  `enabled` is `SEMANTIC_CACHE_ENABLED`, `hasVectorize`
the availability of the `cache.vectorize` binding. -/
def findSimilarText (enabled hasVectorize : Bool) (token : Option String)
    (stats : RollingStats) (query : SemanticQuery) (rand : ℚ)
    (modelName userPrefix : String) : Option SimilarityResult × RollingStats :=
  if !enabled then (none, stats)
  else if !hasVectorize then (none, stats)
  else
    match query with
    | .failure => (none, stats)
    | .results matchList =>
      if matchList.length = 0 then
        (some ⟨none, 0, modelName, userPrefix, false⟩, stats)
      else
        let stats1 := statsAfterQuery stats matchList
        let dynamicThreshold := classifyThreshold token stats1
        let above := matchList.filter (fun m => acceptBySimilarity m.score dynamicThreshold)
        if above.length > 0 then
          let selectedMatch := randomSelect above rand
          (some ⟨some selectedMatch.id, selectedMatch.score,
                 selectedMatch.metaModel.getD "unknown",
                 selectedMatch.metaUserPrefix.getD "anon", true⟩, stats1)
        else
          let bestMatch := matchList.getD 0 defaultVMatch
          (some ⟨none, bestMatch.score, bestMatch.metaModel.getD "unknown",
                 bestMatch.metaUserPrefix.getD "anon", false⟩, stats1)

/-- Embedding of the earlier static-threshold `findSimilarText` (the
`cloudflare-cache` copy): identical flow but the classification threshold is
the fixed `cache.similarityThreshold` and no rolling statistics exist. -/
def findSimilarTextStatic (enabled hasVectorize : Bool) (similarityThreshold : Score)
    (query : SemanticQuery) (rand : ℚ)
    (modelName userPrefix : String) : Option SimilarityResult :=
  if !enabled then none
  else if !hasVectorize then none
  else
    match query with
    | .failure => none
    | .results matchList =>
      if matchList.length = 0 then
        some ⟨none, 0, modelName, userPrefix, false⟩
      else
        let above := matchList.filter (fun m => acceptBySimilarity m.score similarityThreshold)
        if above.length > 0 then
          let selectedMatch := randomSelect above rand
          some ⟨some selectedMatch.id, selectedMatch.score,
                selectedMatch.metaModel.getD "unknown",
                selectedMatch.metaUserPrefix.getD "anon", true⟩
        else
          let bestMatch := matchList.getD 0 defaultVMatch
          some ⟨none, bestMatch.score, bestMatch.metaModel.getD "unknown",
                bestMatch.metaUserPrefix.getD "anon", false⟩

/-! ## Hash-embedding vector utilities (`vector-utils.js`)

Embeds `querySimilarVectors`: the Vectorize query result is supplied as an
`Except` value (the catch clause returns `[]` on any error), and matches are
filtered by the euclidean-distance convention `score < 1 - threshold`. -/

/-- One raw match of `env.VECTORIZE_CACHE.query`, with the metadata fields
read by `querySimilarVectors`. -/
structure RawMatch where
  id : String
  score : Score
  metaCacheKey : String
  metaUrl : String
  metaTimestamp : String
deriving Repr, DecidableEq

/-- Object produced per surviving match by `querySimilarVectors` (the
`similarity` field is `1 - score`; its `.toFixed(4)` display formatting is
elided). -/
structure QMatch where
  cacheKey : String
  score : Score
  similarity : Score
  url : String
  timestamp : String
deriving Repr, DecidableEq

/-- Filter predicate of `querySimilarVectors`:
`match.score < (1 - similarityThreshold)` (euclidean distance, lower score
means closer). -/
def acceptByDistance (score similarityThreshold : Score) : Bool :=
  score < 1 - similarityThreshold

/-- Embedding of `querySimilarVectors`: on a query error the catch clause
returns `[]`; otherwise matches passing the distance filter are mapped to
their cache keys. -/
def querySimilarVectors (raw : Except Unit (List RawMatch))
    (similarityThreshold : Score) : List QMatch :=
  match raw with
  | .error _ => []
  | .ok ms =>
    (ms.filter (fun m => acceptByDistance m.score similarityThreshold)).map
      (fun m => ⟨m.metaCacheKey, m.score, 1 - m.score, m.metaUrl, m.metaTimestamp⟩)

/-! ## Request router (`index.js` worker `fetch`)

The worker is embedded as a function from the request descriptor, the
environment bindings and an oracle of external-call results to a `Trace`:
the client-visible response plus flags recording which cache side effects
were performed.  `generateCacheKey` and `proxyToOrigin` live in modules the
router only calls into; their results (`cacheKey` is irrelevant to the
claims, the origin response is `origin`) are oracle inputs. -/

/-- Stored HTTP metadata of an R2 object. -/
structure HttpMetadata where
  contentType : Option String
  contentEncoding : Option String
  contentDisposition : Option String
  contentLanguage : Option String
deriving Repr, DecidableEq

/-- Body of a cached R2 object: either a plain string or a byte stream. -/
inductive R2Body where
  | str (s : String)
  | stream (bytes : List Nat)
deriving Repr, DecidableEq

/-- An object returned by `env.TEXT_BUCKET.get`. -/
structure R2Object where
  body : R2Body
  httpMetadata : Option HttpMetadata
deriving Repr, DecidableEq

/-- Provenance of the bytes of the client response. -/
inductive RespBody where
  | fromOrigin
  | fromCache (b : R2Body)
  | fixedJson (tag : String)
  | empty
deriving Repr, DecidableEq

/-- The client-visible response: status, body provenance and headers. -/
structure ClientResp where
  status : Nat
  body : RespBody
  headers : List (String × String)
deriving Repr, DecidableEq

/-- The response of the origin service (status and headers; its body is
`RespBody.fromOrigin`). -/
structure OriginResp where
  status : Nat
  headers : List (String × String)
deriving Repr, DecidableEq

/-- Request descriptor: method, URL pathname and the two query-parameter
flags the router reads (`no-cache` and `stream`). -/
structure ReqInput where
  method : String
  pathname : String
  hasNoCacheParam : Bool
  hasStreamParam : Bool
deriving Repr, DecidableEq

/-- Environment bindings relevant to control flow: presence of the
`VECTORIZE_CACHE` binding. -/
structure EnvInput where
  hasVectorizeCache : Bool
deriving Repr, DecidableEq

deriving instance DecidableEq for Except

/-- Results of the external calls the router awaits:
whether `request.clone().json()` succeeds, the exact-store get (which may
throw), the re-issued get in the sniffing branch, the raw vector query, the
R2 get for a similar match, and the origin response. -/
structure Oracle where
  bodyParses : Bool
  exactGet : Except Unit (Option R2Object)
  exactGetFresh : Option R2Object
  vectorQueryRaw : Except Unit (List RawMatch)
  r2GetSimilar : Option R2Object
  origin : OriginResp
deriving Repr, DecidableEq

/-- A trace of one `fetch` invocation: the response plus which cache-tier
side effects happened (exact-store read, vector-index query, asynchronous
response caching, vector upsert). -/
structure Trace where
  resp : ClientResp
  exactStoreRead : Bool
  vectorIndexQueried : Bool
  cachePopulated : Bool
  vectorStored : Bool
deriving Repr, DecidableEq

/-- Kernel-reducible model of `String.startsWith`. -/
def strStartsWith (s p : String) : Bool :=
  decide (s.toList.take p.toList.length = p.toList)

/-- Substring containment, modeling the JavaScript `String.includes`. -/
def strIncludes (s pat : String) : Bool :=
  s.toList.tails.any (fun t => decide (t.take pat.toList.length = pat.toList))

/-- Lookup of a header value (first entry with the given name). -/
def lookupHeader (hs : List (String × String)) (k : String) : Option String :=
  (hs.find? (fun p => p.fst = k)).map (fun p => p.snd)

/-- Model of `Headers.set`: replace any entry with the name, append the new
value. -/
def setHeader (hs : List (String × String)) (k v : String) : List (String × String) :=
  hs.filter (fun p => !(p.fst = k)) ++ [(k, v)]

/-- The three CORS headers set on every cache-served response. -/
def corsTail : List (String × String) :=
  [("access-control-allow-origin", "*"),
   ("access-control-allow-methods", "GET, POST, OPTIONS"),
   ("access-control-allow-headers", "Content-Type")]

/-- Headers appended to every exact-hit response after content negotiation. -/
def hitTail : List (String × String) :=
  ("cache-control", "public, max-age=31536000, immutable") :: ("x-cache", "HIT") :: corsTail

/-- Content-type constants of the router. -/
def jsonCT : String := "application/json; charset=utf-8"

/-- Plain-text content type used by the sniffing fallbacks. -/
def plainCT : String := "text/plain; charset=utf-8"

/-- Event-stream content type used for streaming requests. -/
def eventStreamCT : String := "text/event-stream; charset=utf-8"

/-- Headers copied from stored HTTP metadata (each only when present). -/
def metadataHeaders (md : HttpMetadata) : List (String × String) :=
  (md.contentType.toList.map (fun v => ("content-type", v))) ++
  (md.contentEncoding.toList.map (fun v => ("content-encoding", v))) ++
  (md.contentDisposition.toList.map (fun v => ("content-disposition", v))) ++
  (md.contentLanguage.toList.map (fun v => ("content-language", v)))

/-- Exact-hit response construction, including the content-type sniffing
fallback when no HTTP metadata was stored: a streaming request gets the
event-stream type; a string body gets plain text; otherwise the first byte
of the stream is peeked at — 123 and 91 are the UTF-8 codes of the opening
curly and square brackets — and the response is rebuilt from a fresh get.
A failure inside the peek (empty stream, failed fresh get) lands in the
catch clause, which falls back to the JSON content type and the already
fetched body. -/
def exactHitResponse (isStreaming : Bool) (obj : R2Object)
    (fresh : Option R2Object) : ClientResp :=
  match obj.httpMetadata with
  | some md => ⟨200, .fromCache obj.body, metadataHeaders md ++ hitTail⟩
  | none =>
    if isStreaming then
      ⟨200, .fromCache obj.body, ("content-type", eventStreamCT) :: hitTail⟩
    else
      match obj.body with
      | .str _ => ⟨200, .fromCache obj.body, ("content-type", plainCT) :: hitTail⟩
      | .stream [] => ⟨200, .fromCache obj.body, ("content-type", jsonCT) :: hitTail⟩
      | .stream (b :: _) =>
        let ct := if b = 123 ∨ b = 91 then jsonCT else plainCT
        match fresh with
        | some fobj => ⟨200, .fromCache fobj.body, [("content-type", ct)]⟩
        | none => ⟨200, .fromCache obj.body, ("content-type", jsonCT) :: hitTail⟩

/-- Selection of the served match on the vector-cache path: always the first
(most similar) element of the filtered list, with no randomness involved. -/
def vectorCacheSelectedMatch (sv : List QMatch) : Option QMatch :=
  sv.head?

/-- Headers of a vector-cache hit response. -/
def vectorHitHeaders (mdOpt : Option HttpMetadata) (isStreaming : Bool)
    (bestMatch : QMatch) : List (String × String) :=
  (match mdOpt with
   | some md => metadataHeaders md
   | none => [("content-type", if isStreaming then eventStreamCT else jsonCT)]) ++
  [("cache-control", "public, max-age=31536000, immutable"),
   ("x-cache", "VECTOR-HIT"),
   ("x-vector-similarity", toString bestMatch.score),
   ("x-vector-original-key", bestMatch.cacheKey)] ++ corsTail

/-- Direct proxy to the origin (`proxyToOrigin`): the origin response is
forwarded unmodified and no cache tier is touched. -/
def directProxy (o : Oracle) : Trace :=
  ⟨⟨o.origin.status, .fromOrigin, o.origin.headers⟩, false, false, false, false⟩

/-- Cacheability test of the origin content type (text, JSON, javascript,
XML, LD-JSON). -/
def isTextResponseCT (ct : String) : Bool :=
  strIncludes ct "text/" || strIncludes ct "application/json" ||
  strIncludes ct "application/javascript" || strIncludes ct "application/xml" ||
  strIncludes ct "application/ld+json"

/-- Streaming-response test of the origin content type. -/
def isStreamingResponseCT (ct : String) : Bool :=
  strIncludes ct "text/event-stream"

/-- Origin phase after both cache tiers missed: proxy to origin, schedule
asynchronous population when the response is a 200 with a cacheable content
type (plus the vector upsert on the vector-cache path), and add the
`x-cache: MISS` header. -/
def originPhase (env : EnvInput) (o : Oracle) (isVC vectorQueried : Bool) : Trace :=
  let ct := (lookupHeader o.origin.headers "content-type").getD ""
  let cacheIt := decide (o.origin.status = 200) &&
    (isTextResponseCT ct || isStreamingResponseCT ct)
  ⟨⟨o.origin.status, .fromOrigin, setHeader o.origin.headers "x-cache" "MISS"⟩,
   true, vectorQueried, cacheIt, cacheIt && isVC && env.hasVectorizeCache⟩

/-- Embedding of the worker `fetch` handler (cache-relevant slice): the
`/vectorcache` info endpoint and the special chat-completions passthrough,
the cache bypasses, POST body parsing, the exact-store lookup with the
metadata/sniffing response, the vector-cache similarity lookup, and the
origin fallback with asynchronous population. -/
def fetchRoute (req : ReqInput) (env : EnvInput) (o : Oracle) : Trace :=
  let isVC := strStartsWith req.pathname "/vectorcache"
  if isVC ∧ req.pathname = "/vectorcache" then
    ⟨⟨200, .fixedJson "vectorcache-root", ("content-type", "application/json") :: corsTail⟩,
     false, false, false, false⟩
  else
    let pathname := if isVC then
        (let p := String.mk (req.pathname.toList.drop 12); if p = "" then "/" else p)
      else req.pathname
    if isVC ∧ req.pathname = "/vectorcache/v1/chat/completions" ∧ req.method = "POST" then
      if o.bodyParses then
        ⟨⟨o.origin.status, .fromOrigin, o.origin.headers⟩, false, false, false, false⟩
      else
        ⟨⟨500, .fixedJson "chat-completions-error",
          [("content-type", "application/json"), ("access-control-allow-origin", "*")]⟩,
         false, false, false, false⟩
    else if isVC ∧ req.pathname = "/vectorcache/v1/chat/completions" ∧ req.method = "OPTIONS" then
      ⟨⟨204, .empty,
        [("access-control-allow-origin", "*"),
         ("access-control-allow-methods", "GET, POST, OPTIONS"),
         ("access-control-allow-headers", "Content-Type"),
         ("access-control-max-age", "86400")]⟩, false, false, false, false⟩
    else if req.hasNoCacheParam ∨ pathname = "/models" ∨ pathname = "/feed" then
      directProxy o
    else if req.method = "POST" ∧ o.bodyParses = false then
      directProxy o
    else
      match o.exactGet with
      | .ok (some obj) =>
        ⟨exactHitResponse req.hasStreamParam obj o.exactGetFresh, true, false, false, false⟩
      | _ =>
        if isVC ∧ env.hasVectorizeCache then
          let similarVectors := querySimilarVectors o.vectorQueryRaw (8/10)
          match vectorCacheSelectedMatch similarVectors with
          | some bestMatch =>
            match o.r2GetSimilar with
            | some sobj =>
              ⟨⟨200, .fromCache sobj.body,
                vectorHitHeaders sobj.httpMetadata req.hasStreamParam bestMatch⟩,
               true, true, false, false⟩
            | none => originPhase env o isVC true
          | none => originPhase env o isVC true
        else
          originPhase env o isVC false

/-! ## Claim C2: cold-start threshold -/

/-- C2: for every caller whose rolling window holds fewer than the minimum
sample count of 7, `getDynamicThreshold` returns the fixed conservative
default threshold 0.9, regardless of which scores have been observed. -/
theorem getDynamicThreshold_cold_start (s : RollingStats)
    (h : s.scores.length < 7) : s.getDynamicThreshold = 9/10 := by
  unfold RollingStats.getDynamicThreshold
  rw [if_pos h]

/-- C2 witness: a window of three scores is below the minimum sample count
and yields the 0.9 default. -/
theorem getDynamicThreshold_cold_start_witness :
    (RollingStats.mk [1, 2, 3] 200 20).scores.length < 7 ∧
    (RollingStats.mk [1, 2, 3] 200 20).getDynamicThreshold = 9/10 :=
  ⟨by decide, getDynamicThreshold_cold_start _ (by decide)⟩

/-! ## Claim C8: opposite score conventions -/

/-- C8: the two semantic-match classification predicates use opposite score
conventions and are not equivalent: at score 0.9 and threshold 0.8 the
distance-convention path rejects (0.9 is not below 1 - 0.8) while the
similarity-convention path accepts (0.9 is at least 0.8). -/
theorem score_convention_mismatch :
    acceptByDistance (9/10) (8/10) = false ∧
    acceptBySimilarity (9/10) (8/10) = true := by
  constructor
  · simp only [acceptByDistance, decide_eq_false_iff_not]
    norm_num
  · simp only [acceptBySimilarity, decide_eq_true_eq]
    norm_num

/-! ## Claim C5: selection among qualifying matches -/

/-- C5 counterexample: on the vector-cache path of the worker the served
match is always the first (best) element of the qualifying list — here a
list of two distinct qualifying matches always yields the first, so the
second can never be served, contradicting uniformly random selection. -/
theorem vectorCache_always_first_counterexample :
    vectorCacheSelectedMatch
        [⟨"k0", 0, 1, "u0", "t0"⟩, ⟨"k1", 0, 1, "u1", "t1"⟩] =
      some ⟨"k0", 0, 1, "u0", "t0"⟩ ∧
    (⟨"k0", 0, 1, "u0", "t0"⟩ : QMatch) ≠ ⟨"k1", 0, 1, "u1", "t1"⟩ := by
  refine ⟨rfl, fun h => ?_⟩
  have hk : "k0" = "k1" := congrArg QMatch.cacheKey h
  exact absurd hk (by decide)

/-- C5 amended: in both `findSimilarText` variants every index of the
qualifying list is reachable by some random draw (the draw `i / length`
selects index `i`), while the vector-cache path of the worker
deterministically serves the head of the qualifying list. -/
theorem match_selection_amended (l : List VMatch) (i : Nat) (h : i < l.length)
    (sv : List QMatch) :
    randomSelect l ((i : ℚ) / (l.length : ℚ)) = l.getD i defaultVMatch ∧
    vectorCacheSelectedMatch sv = sv.head? := by
  refine ⟨?_, rfl⟩
  unfold randomSelect
  have hn : (l.length : ℚ) ≠ 0 := by
    have : 0 < l.length := Nat.pos_of_ne_zero (by omega)
    exact_mod_cast this.ne'
  rw [div_mul_cancel₀ _ hn, Int.floor_natCast, Int.toNat_natCast]

/-- C5 amended witness: the draw one half on a two-element qualifying list
selects the second element, and the head is served on the worker path. -/
theorem match_selection_amended_witness :
    randomSelect [⟨"a", 0, none, none⟩, ⟨"b", 0, none, none⟩]
        (((1 : ℕ) : ℚ) / (([⟨"a", 0, none, none⟩, ⟨"b", 0, none, none⟩] : List VMatch).length : ℚ)) =
      ([⟨"a", 0, none, none⟩, ⟨"b", 0, none, none⟩] : List VMatch).getD 1 defaultVMatch ∧
    vectorCacheSelectedMatch [] = ([] : List QMatch).head? :=
  match_selection_amended [⟨"a", 0, none, none⟩, ⟨"b", 0, none, none⟩] 1 (by decide) []

/-! ## Claim C10: result invariant of the semantic lookups -/

/-- C10: every non-null result of either `findSimilarText` variant marks
`aboveThreshold` exactly when `cacheKey` is non-null, and when no match
qualifies the similarity reported is the best (first) score, or zero when
there are no matches at all. -/
theorem similarity_result_invariant
    (enabled hasVectorize : Bool) (token : Option String) (stats : RollingStats)
    (similarityThreshold : Score) (query : SemanticQuery) (rand : ℚ)
    (modelName userPrefix : String) (r rs : SimilarityResult)
    (h : (findSimilarText enabled hasVectorize token stats query rand
            modelName userPrefix).1 = some r)
    (hs : findSimilarTextStatic enabled hasVectorize similarityThreshold query rand
            modelName userPrefix = some rs) :
    (r.aboveThreshold = true ↔ r.cacheKey.isSome = true) ∧
    (r.aboveThreshold = false →
      r.similarity = (match query with
        | .results (m :: _) => m.score
        | _ => 0)) ∧
    (rs.aboveThreshold = true ↔ rs.cacheKey.isSome = true) ∧
    (rs.aboveThreshold = false →
      rs.similarity = (match query with
        | .results (m :: _) => m.score
        | _ => 0)) := by
  cases enabled with
  | false => simp [findSimilarText] at h
  | true =>
  cases hasVectorize with
  | false => simp [findSimilarText] at h
  | true =>
  cases query with
  | failure => simp [findSimilarText] at h
  | results matchList =>
  simp only [findSimilarText, findSimilarTextStatic, Bool.not_true,
    Bool.false_eq_true, if_false] at h hs
  split at h
  case isTrue hl =>
    rw [if_pos hl] at hs
    obtain rfl : matchList = [] := List.length_eq_zero.mp hl
    replace h : some (⟨none, 0, modelName, userPrefix, false⟩ : SimilarityResult) = some r := h
    injection h with h
    injection hs with hs
    subst h
    subst hs
    simp
  case isFalse hl =>
    obtain ⟨m, ms, rfl⟩ : ∃ m ms, matchList = m :: ms := by
      cases matchList with
      | nil => exact absurd rfl hl
      | cons m ms => exact ⟨m, ms, rfl⟩
    rw [if_neg hl] at hs
    split at h <;> split at hs <;>
      [skip; skip; skip; skip] <;>
      (injection h with h; injection hs with hs; subst h; subst hs; simp [List.getD])

/-- C10 witness: with semantic mode enabled and an empty match list both
lookups produce the no-match result, which satisfies the invariant. -/
theorem similarity_result_invariant_witness :
    ((findSimilarText true true none RollingStats.init (.results []) 0 "m" "u").1 =
      some ⟨none, 0, "m", "u", false⟩) ∧
    ((⟨none, 0, "m", "u", false⟩ : SimilarityResult).aboveThreshold = true ↔
      (⟨none, 0, "m", "u", false⟩ : SimilarityResult).cacheKey.isSome = true) ∧
    ((⟨none, 0, "m", "u", false⟩ : SimilarityResult).aboveThreshold = false →
      (⟨none, 0, "m", "u", false⟩ : SimilarityResult).similarity =
        (match (.results [] : SemanticQuery) with
          | .results (m :: _) => m.score
          | _ => 0)) := by
  have h : (findSimilarText true true none RollingStats.init (.results []) 0 "m" "u").1 =
      some ⟨none, 0, "m", "u", false⟩ := rfl
  have hs : findSimilarTextStatic true true 0 (.results []) 0 "m" "u" =
      some ⟨none, 0, "m", "u", false⟩ := rfl
  have hinv := similarity_result_invariant true true none RollingStats.init 0
    (.results []) 0 "m" "u" _ _ h hs
  exact ⟨h, hinv.1, hinv.2.1⟩

/-! ## Claim C4: the rolling window is a bounded FIFO -/

/-- Dropping from the front commutes with a subsequent drop over an
appended tail. -/
theorem drop_append_drop {α : Type} (l t : List α) (k m : Nat)
    (hk : k ≤ l.length) :
    (l.drop k ++ t).drop m = (l ++ t).drop (k + m) := by
  rw [← List.drop_drop, List.drop_append_of_le_length hk]

/-- Effect of one `addScore` call on a window within its bound: the new
window is the suffix of the pushed list that fits the window size. -/
theorem addScore_scores (s : RollingStats) (x : Score)
    (h : s.scores.length ≤ s.windowSize) :
    (s.addScore x).scores =
      (s.scores ++ [x]).drop (s.scores.length + 1 - s.windowSize) := by
  unfold RollingStats.addScore
  by_cases hgt : (s.scores ++ [x]).length > s.windowSize
  · rw [if_pos hgt]
    have hw : s.scores.length = s.windowSize := by
      simp only [List.length_append, List.length_singleton] at hgt
      omega
    simp only [← List.drop_one]
    congr 1
    omega
  · rw [if_neg hgt]
    simp only [List.length_append, List.length_singleton] at hgt
    have : s.scores.length + 1 - s.windowSize = 0 := by omega
    rw [this, List.drop_zero]

/-- The window size is a constructor constant never changed by `addScore`. -/
theorem addScore_windowSize (s : RollingStats) (x : Score) :
    (s.addScore x).windowSize = s.windowSize := by
  simp only [RollingStats.addScore]
  split <;> rfl

/-- The target hit rate is a constructor constant never changed by
`addScore`. -/
theorem addScore_targetHitRate (s : RollingStats) (x : Score) :
    (s.addScore x).targetHitRate = s.targetHitRate := by
  simp only [RollingStats.addScore]
  split <;> rfl

/-- Folding `addScore` leaves the target hit rate unchanged. -/
theorem foldl_addScore_targetHitRate (xs : List Score) : ∀ (s : RollingStats),
    (xs.foldl RollingStats.addScore s).targetHitRate = s.targetHitRate := by
  induction xs with
  | nil => intro s; rfl
  | cons x xs ih =>
    intro s
    rw [List.foldl_cons, ih, addScore_targetHitRate]

/-- Folding `addScore` over a list of scores keeps exactly the suffix of all
observed scores that fits the window. -/
theorem foldl_addScore_scores (xs : List Score) : ∀ (s : RollingStats),
    s.scores.length ≤ s.windowSize →
    ((xs.foldl RollingStats.addScore s).scores =
      (s.scores ++ xs).drop (s.scores.length + xs.length - s.windowSize)) ∧
    (xs.foldl RollingStats.addScore s).windowSize = s.windowSize := by
  induction xs with
  | nil =>
    intro s h
    refine ⟨?_, rfl⟩
    simp only [List.foldl_nil, List.append_nil, List.length_nil, Nat.add_zero]
    have : s.scores.length - s.windowSize = 0 := by omega
    rw [this, List.drop_zero]
  | cons x xs ih =>
    intro s h
    have hsc := addScore_scores s x h
    have hws := addScore_windowSize s x
    have hlen : (s.addScore x).scores.length ≤ (s.addScore x).windowSize := by
      rw [hsc, hws, List.length_drop, List.length_append, List.length_singleton]
      omega
    obtain ⟨ih1, ih2⟩ := ih (s.addScore x) hlen
    rw [List.foldl_cons]
    refine ⟨?_, by rw [ih2, hws]⟩
    rw [ih1, hsc, hws]
    rw [drop_append_drop _ _ _ _ (by simp)]
    have hlen2 : ((s.scores ++ [x]).drop (s.scores.length + 1 - s.windowSize)).length =
        s.scores.length + 1 - (s.scores.length + 1 - s.windowSize) := by
      rw [List.length_drop, List.length_append, List.length_singleton]
    rw [hlen2]
    have hassoc : (s.scores ++ [x]) ++ xs = s.scores ++ x :: xs := by
      rw [List.append_assoc, List.singleton_append]
    rw [hassoc]
    congr 1
    simp only [List.length_cons]
    omega

/-- C4: starting from a fresh rolling-stats entry, after any sequence of
`addScore` calls the window never exceeds 200 scores, and it holds exactly
the most recent scores in arrival order (the suffix of the observed
sequence). -/
theorem rollingWindow_bounded_fifo (xs : List Score) :
    ((xs.foldl RollingStats.addScore RollingStats.init).scores =
      xs.drop (xs.length - 200)) ∧
    (xs.foldl RollingStats.addScore RollingStats.init).scores.length ≤ 200 := by
  obtain ⟨h1, -⟩ := foldl_addScore_scores xs RollingStats.init (by simp [RollingStats.init])
  have h1' : (xs.foldl RollingStats.addScore RollingStats.init).scores =
      xs.drop (xs.length - 200) := by
    rw [h1]
    simp [RollingStats.init]
  refine ⟨h1', ?_⟩
  rw [h1', List.length_drop]
  omega

/-! ## Claim C6: graceful degradation of the vector index -/

/-- C6: a failing vector-index query produces exactly the client response of
a query with zero matches, and also exactly the client response obtained
when the `VECTORIZE_CACHE` binding is absent (semantic mode disabled) — no
error reaches the client and the request proceeds to origin regardless. -/
theorem indexUnavailable_graceful (req : ReqInput) (env : EnvInput) (o : Oracle) :
    ((fetchRoute req env { o with vectorQueryRaw := .error () }).resp =
      (fetchRoute req env { o with vectorQueryRaw := .ok [] }).resp) ∧
    ((fetchRoute req env { o with vectorQueryRaw := .error () }).resp =
      (fetchRoute req { env with hasVectorizeCache := false } o).resp) := by
  refine ⟨rfl, ?_⟩
  simp only [fetchRoute]
  repeat' first | rfl | split
  all_goals simp_all [vectorCacheSelectedMatch, querySimilarVectors]

/-! ## Claim C7: unparsable POST bodies -/

/-- C7 counterexample: a POST to the special `/vectorcache/v1/chat/completions`
endpoint whose body cannot be parsed is answered with a 500 error response
built by the worker itself — it is neither proxied to the origin nor served
from a cache, contradicting the claim that an unparsable body never fails
the request. -/
theorem unparsablePost_chat_endpoint_500 :
    ((fetchRoute ⟨"POST", "/vectorcache/v1/chat/completions", false, false⟩ ⟨true⟩
        ⟨false, .ok none, none, .ok [], none, ⟨200, []⟩⟩).resp.status = 500) ∧
    ((fetchRoute ⟨"POST", "/vectorcache/v1/chat/completions", false, false⟩ ⟨true⟩
        ⟨false, .ok none, none, .ok [], none, ⟨200, []⟩⟩).resp.body ≠ .fromOrigin) := by
  decide

/-- C7 amended: for every POST request outside the two special
`/vectorcache` endpoints, an unparsable body makes the router proxy the
request directly to the origin with the origin response unmodified, touching
neither cache tier and performing no population. -/
theorem unparsablePost_direct_proxy_amended (req : ReqInput) (env : EnvInput)
    (o : Oracle) (hm : req.method = "POST") (hp : o.bodyParses = false)
    (h1 : req.pathname ≠ "/vectorcache")
    (h2 : req.pathname ≠ "/vectorcache/v1/chat/completions") :
    fetchRoute req env o =
      ⟨⟨o.origin.status, .fromOrigin, o.origin.headers⟩, false, false, false, false⟩ := by
  unfold fetchRoute
  rw [if_neg (fun hc => h1 hc.2)]
  rw [if_neg (fun hc => h2 hc.2.1)]
  rw [if_neg (fun hc => by rw [hm] at hc; exact absurd hc.2.2 (by decide))]
  split <;> split
  · rfl
  · rw [if_pos ⟨hm, hp⟩]; rfl
  · rfl
  · rw [if_pos ⟨hm, hp⟩]; rfl

/-- C7 amended witness: a POST to an ordinary path with an unparsable body
is proxied straight through. -/
theorem unparsablePost_direct_proxy_amended_witness :
    fetchRoute ⟨"POST", "/foo", false, false⟩ ⟨true⟩
        ⟨false, .ok none, none, .ok [], none, ⟨201, [("a", "b")]⟩⟩ =
      ⟨⟨201, .fromOrigin, [("a", "b")]⟩, false, false, false, false⟩ :=
  unparsablePost_direct_proxy_amended ⟨"POST", "/foo", false, false⟩ ⟨true⟩
    ⟨false, .ok none, none, .ok [], none, ⟨201, [("a", "b")]⟩⟩
    rfl rfl (by decide) (by decide)

/-! ## Claim C9: content-type sniffing on metadata-less exact hits -/

/-- C9 counterexample: for a streaming request whose cached body starts with
the opening-brace byte 123, the router serves the event-stream content type,
not the JSON type the first-byte rule of the claim would demand — the
streaming check precedes the sniffing. -/
theorem contentType_sniffing_streaming_counterexample :
    lookupHeader (exactHitResponse true ⟨.stream [123], none⟩
        (some ⟨.stream [123], none⟩)).headers "content-type" =
      some eventStreamCT ∧ eventStreamCT ≠ jsonCT := by
  constructor
  · rfl
  · decide

/-- C9 amended: on an exact hit without stored HTTP metadata the content
type is the event-stream default whenever the request indicated streaming,
without inspecting the body; only otherwise is the first byte inspected —
a string body yields plain text, a first byte of 123 or 91 (curly or square
opening bracket) yields JSON and any other first byte plain text, while an
empty stream or a failing re-fetch falls back to JSON via the catch
clause. -/
theorem contentType_sniffing_amended (isStreaming : Bool) (obj : R2Object)
    (fresh : Option R2Object) (hmd : obj.httpMetadata = none) :
    lookupHeader (exactHitResponse isStreaming obj fresh).headers "content-type" =
      some (if isStreaming then eventStreamCT
            else match obj.body with
              | .str _ => plainCT
              | .stream [] => jsonCT
              | .stream (b :: _) =>
                match fresh with
                | some _ => if b = 123 ∨ b = 91 then jsonCT else plainCT
                | none => jsonCT) := by
  obtain ⟨body, md⟩ := obj
  simp only at hmd
  subst hmd
  cases isStreaming with
  | true => rfl
  | false =>
    cases body with
    | str s => rfl
    | stream bytes =>
      cases bytes with
      | nil => rfl
      | cons b rest =>
        cases fresh with
        | none => rfl
        | some fobj =>
          simp only [exactHitResponse, Bool.false_eq_true, if_false]
          by_cases hb : b = 123 ∨ b = 91
          · rw [if_pos hb]
            rfl
          · rw [if_neg hb]
            rfl

/-- C9 amended witness: a non-streaming request with a cached stream body
starting with byte 91 and a successful re-fetch yields the JSON content
type. -/
theorem contentType_sniffing_amended_witness :
    lookupHeader (exactHitResponse false ⟨.stream [91], none⟩
        (some ⟨.str "x", none⟩)).headers "content-type" =
      some (if false then eventStreamCT
            else match (⟨.stream [91], none⟩ : R2Object).body with
              | .str _ => plainCT
              | .stream [] => jsonCT
              | .stream (b :: _) =>
                match (some (⟨.str "x", none⟩ : R2Object)) with
                | some _ => if b = 123 ∨ b = 91 then jsonCT else plainCT
                | none => jsonCT) :=
  contentType_sniffing_amended false ⟨.stream [91], none⟩ (some ⟨.str "x", none⟩) rfl

/-! ## Claim C1: the dynamic threshold is the 80th-percentile score -/

/-- Floor arithmetic of the percentile index at the default 20 percent
target hit rate. -/
theorem floor_eightyPercent (n : ℕ) :
    (⌊(100 - ((20 : ℕ) : ℚ)) / 100 * (n : ℚ)⌋).toNat = 4 * n / 5 := by
  have h1 : (100 - ((20 : ℕ) : ℚ)) / 100 * (n : ℚ) = ((4 * n : ℕ) : ℚ) / ((5 : ℕ) : ℚ) := by
    push_cast
    ring
  rw [h1, Int.floor_toNat, Nat.floor_div_nat, Nat.floor_natCast]

/-- The percentile index at the default target hit rate is nonnegative. -/
theorem floor_eightyPercent_nonneg (n : ℕ) :
    ¬(⌊(100 - ((20 : ℕ) : ℚ)) / 100 * (n : ℚ)⌋ < 0) := by
  rw [not_lt]
  apply Int.floor_nonneg.mpr
  have h20 : (100 - ((20 : ℕ) : ℚ)) / 100 = 4 / 5 := by norm_num
  rw [h20]
  positivity

/-- Closed form of `getDynamicThreshold` at the default 20 percent target
once the window has at least 7 samples: look up the entry at Nat index
`4 * n / 5` of the ascending sort, falling back to 0.9 when that entry is
zero. -/
theorem getDynamicThreshold_eq (s : RollingStats) (h7 : 7 ≤ s.scores.length)
    (ht : s.targetHitRate = 20) :
    s.getDynamicThreshold =
      (if (List.insertionSort (· ≤ ·) s.scores).getD (4 * s.scores.length / 5) 0 = 0
       then 9/10
       else (List.insertionSort (· ≤ ·) s.scores).getD (4 * s.scores.length / 5) 0) := by
  unfold RollingStats.getDynamicThreshold
  rw [if_neg (by omega)]
  simp only [ht]
  rw [if_neg (floor_eightyPercent_nonneg _)]
  rw [floor_eightyPercent]
  rw [(List.perm_insertionSort (· ≤ ·) s.scores).length_eq]

/-- In an ascending sort, scores strictly above any bound at least as large
as the entry at `idx` can only occupy the positions after `idx`. -/
theorem length_filter_gt_sorted (l : List ℚ) (idx : ℕ) (hidx : idx < l.length)
    (thr : ℚ) (hthr : (List.insertionSort (· ≤ ·) l).getD idx 0 ≤ thr) :
    (l.filter (fun x => decide (thr < x))).length ≤ l.length - idx - 1 := by
  have hperm : (List.insertionSort (· ≤ ·) l).Perm l := List.perm_insertionSort _ _
  have hlen : (List.insertionSort (· ≤ ·) l).length = l.length := hperm.length_eq
  have hsort : (List.insertionSort (· ≤ ·) l).Sorted (· ≤ ·) :=
    List.sorted_insertionSort _ _
  have hfl : (l.filter (fun x => decide (thr < x))).length =
      ((List.insertionSort (· ≤ ·) l).filter (fun x => decide (thr < x))).length :=
    ((hperm.filter _).length_eq).symm
  rw [hfl]
  have hidxs : idx < (List.insertionSort (· ≤ ·) l).length := by omega
  have htake : List.filter (fun x => decide (thr < x))
      ((List.insertionSort (· ≤ ·) l).take (idx + 1)) = [] := by
    apply List.filter_eq_nil_iff.mpr
    intro a ha
    simp only [decide_eq_true_eq, not_lt]
    obtain ⟨j, hj, rfl⟩ := List.mem_iff_getElem.mp ha
    rw [List.getElem_take]
    have hjlen : j < (List.insertionSort (· ≤ ·) l).length := by
      have := hj
      rw [List.length_take] at this
      omega
    have hjle : j ≤ idx := by
      have := hj
      rw [List.length_take] at this
      omega
    have hmono : (List.insertionSort (· ≤ ·) l).get ⟨j, hjlen⟩ ≤
        (List.insertionSort (· ≤ ·) l).get ⟨idx, hidxs⟩ :=
      hsort.rel_get_of_le (by exact hjle)
    have hgd : (List.insertionSort (· ≤ ·) l).getD idx 0 =
        (List.insertionSort (· ≤ ·) l).get ⟨idx, hidxs⟩ := by
      rw [List.getD_eq_getElem _ _ hidxs]
      rfl
    calc (List.insertionSort (· ≤ ·) l)[j] =
          (List.insertionSort (· ≤ ·) l).get ⟨j, hjlen⟩ := rfl
      _ ≤ (List.insertionSort (· ≤ ·) l).get ⟨idx, hidxs⟩ := hmono
      _ ≤ thr := by rw [← hgd]; exact hthr
  calc ((List.insertionSort (· ≤ ·) l).filter (fun x => decide (thr < x))).length
      = (((List.insertionSort (· ≤ ·) l).take (idx + 1) ++
          (List.insertionSort (· ≤ ·) l).drop (idx + 1)).filter
            (fun x => decide (thr < x))).length := by
        rw [List.take_append_drop]
    _ = (List.filter (fun x => decide (thr < x))
          ((List.insertionSort (· ≤ ·) l).take (idx + 1))).length +
        (List.filter (fun x => decide (thr < x))
          ((List.insertionSort (· ≤ ·) l).drop (idx + 1))).length := by
        rw [List.filter_append, List.length_append]
    _ ≤ 0 + ((List.insertionSort (· ≤ ·) l).drop (idx + 1)).length := by
        rw [htake]
        simp only [List.length_nil]
        exact Nat.add_le_add_left (List.length_filter_le _ _) 0
    _ = (List.insertionSort (· ≤ ·) l).length - (idx + 1) := by
        rw [Nat.zero_add, List.length_drop]
    _ ≤ l.length - idx - 1 := by omega

/-- C1 counterexample: a reachable window of seven zero scores has its
80th-percentile entry equal to 0, yet the returned threshold is 0.9, because
`sorted[index] || 0.9` treats the legitimate percentile value 0 as falsy. -/
theorem getDynamicThreshold_zero_counterexample :
    (((List.replicate 7 (0 : ℚ)).foldl RollingStats.addScore
        RollingStats.init)).getDynamicThreshold = 9/10 ∧
    (List.insertionSort (· ≤ ·)
        ((List.replicate 7 (0 : ℚ)).foldl RollingStats.addScore
          RollingStats.init).scores).getD
      (4 * ((List.replicate 7 (0 : ℚ)).foldl RollingStats.addScore
          RollingStats.init).scores.length / 5) 0 = 0 ∧
    (9/10 : ℚ) ≠ 0 := by
  have hsc : ((List.replicate 7 (0 : ℚ)).foldl RollingStats.addScore
      RollingStats.init).scores = List.replicate 7 (0 : ℚ) := by
    obtain ⟨h1, -⟩ := foldl_addScore_scores (List.replicate 7 (0 : ℚ))
      RollingStats.init (by simp [RollingStats.init])
    simpa [RollingStats.init] using h1
  have ht : ((List.replicate 7 (0 : ℚ)).foldl RollingStats.addScore
      RollingStats.init).targetHitRate = 20 := by
    rw [foldl_addScore_targetHitRate]
    rfl
  refine ⟨?_, ?_, by norm_num⟩
  · rw [getDynamicThreshold_eq _ (by rw [hsc]; simp) ht]
    rw [if_pos (by rw [hsc]; decide)]
  · rw [hsc]
    decide

/-- C1 amended: once the window holds at least 7 samples (at the default 20
percent target), the returned threshold equals the entry at index
`floor(0.8 * n)` of the ascending sort whenever that entry is nonzero, and
is the fixed 0.9 instead when the entry is zero; in either case at most 20
percent of the scores in the window lie strictly above the returned
threshold. -/
theorem getDynamicThreshold_percentile_amended (s : RollingStats)
    (h7 : 7 ≤ s.scores.length) (ht : s.targetHitRate = 20) :
    ((List.insertionSort (· ≤ ·) s.scores).getD (4 * s.scores.length / 5) 0 ≠ 0 →
      s.getDynamicThreshold =
        (List.insertionSort (· ≤ ·) s.scores).getD (4 * s.scores.length / 5) 0) ∧
    ((List.insertionSort (· ≤ ·) s.scores).getD (4 * s.scores.length / 5) 0 = 0 →
      s.getDynamicThreshold = 9/10) ∧
    5 * (s.scores.filter (fun x => decide (s.getDynamicThreshold < x))).length ≤
      s.scores.length := by
  have heq := getDynamicThreshold_eq s h7 ht
  refine ⟨fun hne => by rw [heq, if_neg hne],
          fun h0 => by rw [heq, if_pos h0], ?_⟩
  have hidx : 4 * s.scores.length / 5 < s.scores.length := by omega
  have hle : (List.insertionSort (· ≤ ·) s.scores).getD (4 * s.scores.length / 5) 0 ≤
      s.getDynamicThreshold := by
    rw [heq]
    split
    · rename_i h0
      rw [h0]
      norm_num
    · exact le_refl _
  have hcount := length_filter_gt_sorted s.scores (4 * s.scores.length / 5) hidx
    s.getDynamicThreshold hle
  have harith : ∀ c n : ℕ, 7 ≤ n → c ≤ n - 4 * n / 5 - 1 → 5 * c ≤ n := by omega
  exact harith _ _ h7 hcount

/-- C1 amended witness: a window of seven scores 1 has threshold 1 (the
80th-percentile entry) and no score strictly above it. -/
theorem getDynamicThreshold_percentile_amended_witness :
    ((List.insertionSort (· ≤ ·) (RollingStats.mk (List.replicate 7 (1 : ℚ)) 200 20).scores).getD
        (4 * (RollingStats.mk (List.replicate 7 (1 : ℚ)) 200 20).scores.length / 5) 0 ≠ 0 →
      (RollingStats.mk (List.replicate 7 (1 : ℚ)) 200 20).getDynamicThreshold =
        (List.insertionSort (· ≤ ·) (RollingStats.mk (List.replicate 7 (1 : ℚ)) 200 20).scores).getD
          (4 * (RollingStats.mk (List.replicate 7 (1 : ℚ)) 200 20).scores.length / 5) 0) ∧
    ((List.insertionSort (· ≤ ·) (RollingStats.mk (List.replicate 7 (1 : ℚ)) 200 20).scores).getD
        (4 * (RollingStats.mk (List.replicate 7 (1 : ℚ)) 200 20).scores.length / 5) 0 = 0 →
      (RollingStats.mk (List.replicate 7 (1 : ℚ)) 200 20).getDynamicThreshold = 9/10) ∧
    5 * ((RollingStats.mk (List.replicate 7 (1 : ℚ)) 200 20).scores.filter
        (fun x => decide ((RollingStats.mk (List.replicate 7 (1 : ℚ)) 200 20).getDynamicThreshold < x))).length ≤
      (RollingStats.mk (List.replicate 7 (1 : ℚ)) 200 20).scores.length :=
  getDynamicThreshold_percentile_amended (RollingStats.mk (List.replicate 7 (1 : ℚ)) 200 20)
    (by simp) rfl

/-! ## Claim C3: classification against the post-incorporation threshold -/

/-- Random selection with a draw in `[0, 1)` picks an element of the list. -/
theorem randomSelect_mem (l : List VMatch) (rand : ℚ) (h0 : 0 ≤ rand)
    (h1 : rand < 1) (hl : 0 < l.length) : randomSelect l rand ∈ l := by
  unfold randomSelect
  have hnn : 0 ≤ ⌊rand * (l.length : ℚ)⌋ :=
    Int.floor_nonneg.mpr (mul_nonneg h0 (by positivity))
  have hlt : ⌊rand * (l.length : ℚ)⌋ < (l.length : ℤ) := by
    apply Int.floor_lt.mpr
    push_cast
    have hpos : (0 : ℚ) < (l.length : ℚ) := by exact_mod_cast hl
    calc rand * (l.length : ℚ) < 1 * (l.length : ℚ) :=
          mul_lt_mul_of_pos_right h1 hpos
      _ = (l.length : ℚ) := one_mul _
  have hidx : (⌊rand * (l.length : ℚ)⌋).toNat < l.length := by omega
  rw [List.getD_eq_getElem _ _ hidx]
  exact List.getElem_mem _

/-- C3 counterexample: for an anonymous caller (null token) with seven
scores of one half in the (anon) window, a query returning one match of
score three fifths is classified below threshold (the fixed 0.9 is used for
null tokens) even though its score is at or above the dynamic threshold of
the window after the score was incorporated — so classification does not
always use the post-incorporation window threshold. -/
theorem classification_anonymous_counterexample :
    ((findSimilarText true true none
        (RollingStats.mk [1/2, 1/2, 1/2, 1/2, 1/2, 1/2, (1/2 : ℚ)] 200 20)
        (.results [⟨"k1", 3/5, none, none⟩]) 0 "m" "u").1 =
      some ⟨none, 3/5, "unknown", "anon", false⟩) ∧
    (statsAfterQuery
        (RollingStats.mk [1/2, 1/2, 1/2, 1/2, 1/2, 1/2, (1/2 : ℚ)] 200 20)
        [⟨"k1", 3/5, none, none⟩]).getDynamicThreshold ≤ (3/5 : ℚ) := by
  have hs1 : statsAfterQuery
      (RollingStats.mk [1/2, 1/2, 1/2, 1/2, 1/2, 1/2, (1/2 : ℚ)] 200 20)
      [⟨"k1", 3/5, none, none⟩] =
      RollingStats.mk [1/2, 1/2, 1/2, 1/2, 1/2, 1/2, 1/2, (3/5 : ℚ)] 200 20 := by
    simp [statsAfterQuery, RollingStats.addScore]
  constructor
  · simp only [findSimilarText, Bool.not_true, Bool.false_eq_true, if_false,
      hs1, classifyThreshold, tokenTruthy]
    norm_num [acceptBySimilarity, List.filter]
  · rw [hs1]
    rw [getDynamicThreshold_eq _ (by simp) rfl]
    have hsorted : List.insertionSort (· ≤ ·)
        ([1/2, 1/2, 1/2, 1/2, 1/2, 1/2, 1/2, (3/5 : ℚ)]) =
        [1/2, 1/2, 1/2, 1/2, 1/2, 1/2, 1/2, (3/5 : ℚ)] := by
      norm_num [List.insertionSort, List.orderedInsert]
    simp only [hsorted]
    norm_num [List.getD]

/-- C3 amended: with semantic mode active, every query that returns at least
one match first feeds all returned scores into the rolling window of the
caller, and a match qualifies exactly when its score reaches the
classification threshold, which is the dynamic threshold of the updated
window for callers presenting a (truthy) token but the fixed 0.9 for
anonymous callers (whose scores are nevertheless recorded). -/
theorem classification_post_incorporation_amended
    (token : Option String) (stats : RollingStats) (matchList : List VMatch)
    (rand : ℚ) (modelName userPrefix : String) (r : SimilarityResult)
    (hne : matchList ≠ []) (h0 : 0 ≤ rand) (h1 : rand < 1)
    (hr : (findSimilarText true true token stats (.results matchList) rand
            modelName userPrefix).1 = some r) :
    ((findSimilarText true true token stats (.results matchList) rand
        modelName userPrefix).2 = statsAfterQuery stats matchList) ∧
    (r.aboveThreshold = true ↔
      ∃ m ∈ matchList,
        classifyThreshold token (statsAfterQuery stats matchList) ≤ m.score) ∧
    (r.aboveThreshold = false ∨
      ∃ m ∈ matchList, r.cacheKey = some m.id ∧ r.similarity = m.score ∧
        classifyThreshold token (statsAfterQuery stats matchList) ≤ m.score) := by
  have hlen0 : ¬(matchList.length = 0) := fun hc => hne (List.length_eq_zero.mp hc)
  simp only [findSimilarText, Bool.not_true, Bool.false_eq_true, if_false] at hr ⊢
  rw [if_neg hlen0] at hr
  rw [if_neg hlen0]
  split at hr
  case isTrue habove =>
    rw [if_pos habove]
    injection hr with hr
    subst hr
    have hsel : randomSelect
        (matchList.filter (fun m => acceptBySimilarity m.score
          (classifyThreshold token (statsAfterQuery stats matchList)))) rand ∈
        matchList.filter (fun m => acceptBySimilarity m.score
          (classifyThreshold token (statsAfterQuery stats matchList))) :=
      randomSelect_mem _ rand h0 h1 habove
    obtain ⟨hmem, hacc⟩ := List.mem_filter.mp hsel
    have hthr : classifyThreshold token (statsAfterQuery stats matchList) ≤
        (randomSelect (matchList.filter (fun m => acceptBySimilarity m.score
          (classifyThreshold token (statsAfterQuery stats matchList)))) rand).score :=
      of_decide_eq_true hacc
    refine ⟨rfl, ?_, ?_⟩
    · simp only [true_iff]
      exact ⟨_, hmem, hthr⟩
    · exact Or.inr ⟨_, hmem, rfl, rfl, hthr⟩
  case isFalse habove =>
    rw [if_neg habove]
    injection hr with hr
    subst hr
    refine ⟨rfl, ?_, Or.inl rfl⟩
    constructor
    · intro hc
      exact absurd hc (by simp)
    · rintro ⟨m, hm, hthr⟩
      have hnil : matchList.filter (fun m => acceptBySimilarity m.score
          (classifyThreshold token (statsAfterQuery stats matchList))) = [] := by
        have : (matchList.filter (fun m => acceptBySimilarity m.score
            (classifyThreshold token (statsAfterQuery stats matchList)))).length = 0 := by
          omega
        exact List.length_eq_zero.mp this
      have hno := List.filter_eq_nil_iff.mp hnil m hm
      simp only [acceptBySimilarity, decide_eq_true_eq, ge_iff_le] at hno
      exact absurd hthr hno

/-- C3 amended witness: a token-presenting caller with an empty window gets
the cold-start threshold 0.9 after incorporation; a match of score 1
qualifies and is served. -/
theorem classification_post_incorporation_amended_witness :
    ((findSimilarText true true (some "tokenabc") (RollingStats.mk [] 200 20)
        (.results [⟨"k", 1, none, none⟩]) 0 "m" "u").2 =
      statsAfterQuery (RollingStats.mk [] 200 20) [⟨"k", 1, none, none⟩]) ∧
    ((⟨some "k", 1, "unknown", "anon", true⟩ : SimilarityResult).aboveThreshold = true ↔
      ∃ m ∈ [(⟨"k", 1, none, none⟩ : VMatch)],
        classifyThreshold (some "tokenabc")
          (statsAfterQuery (RollingStats.mk [] 200 20) [⟨"k", 1, none, none⟩]) ≤ m.score) ∧
    ((⟨some "k", 1, "unknown", "anon", true⟩ : SimilarityResult).aboveThreshold = false ∨
      ∃ m ∈ [(⟨"k", 1, none, none⟩ : VMatch)],
        (⟨some "k", 1, "unknown", "anon", true⟩ : SimilarityResult).cacheKey = some m.id ∧
        (⟨some "k", 1, "unknown", "anon", true⟩ : SimilarityResult).similarity = m.score ∧
        classifyThreshold (some "tokenabc")
          (statsAfterQuery (RollingStats.mk [] 200 20) [⟨"k", 1, none, none⟩]) ≤ m.score) := by
  have hr : (findSimilarText true true (some "tokenabc") (RollingStats.mk [] 200 20)
      (.results [⟨"k", 1, none, none⟩]) 0 "m" "u").1 =
      some ⟨some "k", 1, "unknown", "anon", true⟩ := by
    have hs1 : statsAfterQuery (RollingStats.mk [] 200 20) [⟨"k", 1, none, none⟩] =
        RollingStats.mk [(1 : ℚ)] 200 20 := by
      simp [statsAfterQuery, RollingStats.addScore]
    simp only [findSimilarText, Bool.not_true, Bool.false_eq_true, if_false, hs1,
      classifyThreshold, tokenTruthy, RollingStats.getDynamicThreshold]
    norm_num [acceptBySimilarity, List.filter, randomSelect]
  exact classification_post_incorporation_amended (some "tokenabc")
    (RollingStats.mk [] 200 20) [⟨"k", 1, none, none⟩] 0 "m" "u"
    ⟨some "k", 1, "unknown", "anon", true⟩ (by simp) (by norm_num) (by norm_num) hr

end Pollinations
